import Mathlib

/-!
Verification of the validation core of `app_streamlit.py` (InsightCare audit app).

This file gives a shallow embedding, translated from the Python source, of:
  * the data model for findings (`Finding`) and delimited tables (`DataFrame`);
  * the two regular expressions `PROC_10D = (?<!\d)(\d{10})(?!\d)` and
    `DATE_8D = \b(\d{8})\b` as position-indexed match predicates;
  * `detect_jul_2025` with its two `strptime` layouts `%d%m%Y` / `%Y%m%d`;
  * the validators `validate_tiss_csv` and `validate_fixed_lines`;
  * the deterministic (no-credential) path of `ia_priorizar_e_sugerir`.

Modelling conventions, chosen once and used throughout:
  * Python floats are embedded as rationals; arithmetic comparisons such as
    `abs(calc - vl_total) > 0.01` are exact over `ℚ`.
  * Python strings are Lean `String`s; a fixed-width file is a `List Char`.
  * Message strings built with f-strings are embedded as a structured message
    type `Desc` carrying exactly the values interpolated by the source
    (rendering to text is injective on that data and not claim-relevant).
  * The in-place pandas column assignment `df[c] = pd.to_numeric(df[c])` is
    embedded by explicit state passing: `validate_tiss_csv` returns the
    findings together with the table as left behind by the call.
-/

namespace InsightCare

/-- A cell of a pandas DataFrame as the validators observe it: missing/NaN,
a string, or a numeric value (floats embedded as rationals). -/
inductive Cell where
  | na : Cell
  | s : String → Cell
  | n : ℚ → Cell
deriving DecidableEq

/-- Structured embedding of the `descricao` strings built by the source;
each constructor carries exactly the data the source interpolates. -/
inductive Desc where
  | colunasAusentes : List String → Desc
  | cidAusente : Desc
  | tussAusente : Desc
  | finDiverg : ℚ → ℚ → Desc
  | arqVazio : Desc
  | fixoComprimento : ℤ → ℕ → Desc
  | sigtapAusente : Desc
  | competenciaDuvida : Desc
deriving DecidableEq

/-- One finding record, as appended by the validators:
`dict(regra_id=..., gravidade=..., registro_id=..., descricao=...,
como_corrigir=..., impacto_estimado_RS=...)`.  `impacto_estimado_RS` is
`none` for Python `None`. -/
structure Finding where
  regra_id : String
  gravidade : String
  registro_id : String
  descricao : Desc
  como_corrigir : String
  impacto_estimado_RS : Option ℚ
deriving DecidableEq

/-- A delimited table: column names plus rows; each row is a total map from
column name to cell (cells at names outside `cols` are phantom). -/
structure DataFrame where
  cols : List String
  rows : List (String → Cell)

/-- Numeral value of a digit character. -/
def c2n (c : Char) : ℕ := c.toNat - 48

/-- Digit run to its numeric value (most significant first). -/
def digitsToNat (ds : List Char) : ℕ := ds.foldl (fun a c => 10 * a + c2n c) 0

/-- Strip leading and trailing whitespace from a character list
(models Python `str.strip()`). -/
def stripChars (cs : List Char) : List Char :=
  ((cs.dropWhile Char.isWhitespace).reverse.dropWhile Char.isWhitespace).reverse

/-- Unsigned decimal literal: digits with an optional fractional part,
at least one digit overall.  Models the numeric-literal subset of
`pd.to_numeric` relevant to the claims (scientific notation omitted). -/
def parseNumCore (cs : List Char) : Option ℚ :=
  let ip := cs.takeWhile Char.isDigit
  let rest := cs.dropWhile Char.isDigit
  match rest with
  | [] => if ip.isEmpty then none else some (digitsToNat ip : ℚ)
  | c :: rest2 =>
    if c = '.' then
      let fp := rest2.takeWhile Char.isDigit
      let rest3 := rest2.dropWhile Char.isDigit
      if rest3.isEmpty ∧ ¬(ip.isEmpty ∧ fp.isEmpty) then
        some ((digitsToNat ip : ℚ) + (digitsToNat fp : ℚ) / (10 : ℚ) ^ fp.length)
      else none
    else none

/-- Signed decimal literal, whitespace-tolerant: the string-to-number
coercion applied by `pd.to_numeric(errors="coerce")`. -/
def parseNum (s : String) : Option ℚ :=
  match stripChars s.toList with
  | '-' :: cs => (parseNumCore cs).map (fun q => -q)
  | '+' :: cs => parseNumCore cs
  | cs => parseNumCore cs

/-- Rendering of a numeric cell for `str(...)`; stands in for Python's float
repr (no claim constrains this text). -/
def ratStr (q : ℚ) : String :=
  toString q.num ++ (if q.den = 1 then "" else "/" ++ toString q.den)

/-- `str(x)` on a cell; `str(float("nan"))` is `"nan"`. -/
def cellStr : Cell → String
  | Cell.na => "nan"
  | Cell.s v => v
  | Cell.n q => ratStr q

/-- True iff every character is whitespace, i.e. `str(x).strip() == ""`. -/
def strBlank (s : String) : Bool := s.toList.all Char.isWhitespace

/-- The emptiness test the row loop applies to `cid10` / `tuss_codigo`:
`pd.isna(x) or str(x).strip() == ""`.  A numeric cell never renders blank. -/
def cellMissing : Cell → Bool
  | Cell.na => true
  | Cell.s v => strBlank v
  | Cell.n _ => false

/-- `pd.to_numeric(x, errors="coerce")` on one cell: numbers pass through,
NaN stays NaN, strings parse or coerce to NaN. -/
def toNumericCell : Cell → Cell
  | Cell.na => Cell.na
  | Cell.n q => Cell.n q
  | Cell.s v =>
    match parseNum v with
    | some q => Cell.n q
    | none => Cell.na

/-- `required_cols` of `validate_tiss_csv`. -/
def required_cols : List String :=
  ["numero_guia", "cid10", "tuss_codigo", "qtd", "vl_unit", "vl_total"]

/-- The three columns coerced in place by
`for c in ["qtd","vl_unit","vl_total"]: df[c] = pd.to_numeric(df[c], errors="coerce")`. -/
def numeric_cols : List String := ["qtd", "vl_unit", "vl_total"]

/-- Effect of the in-place coercion loop on one row. -/
def coerceRow (row : String → Cell) : String → Cell :=
  fun c => if c ∈ numeric_cols then toNumericCell (row c) else row c

/-- `rid = str(row.get("numero_guia", i))`; the positional default `i` is
dead code here because the required-column check already guaranteed the
column exists. -/
def ridOf (row : String → Cell) : String := cellStr (row "numero_guia")

/-- Python `round(float(x), 2)` on a rational (half-up; Python rounds
half-to-even on binary floats, indistinguishable for the claims). -/
def round2q (q : ℚ) : ℚ := (⌊q * 100 + 1 / 2⌋ : ℚ) / 100

/-- The `TISS_CAMPOS_OBR` finding for a missing-columns list. -/
def camposF (missing : List String) : Finding :=
  { regra_id := "TISS_CAMPOS_OBR", gravidade := "alta", registro_id := "-"
    descricao := Desc.colunasAusentes missing
    como_corrigir := "Adicionar colunas exigidas ao CSV antes da análise."
    impacto_estimado_RS := some 0 }

/-- The `TISS_CID_OBR` finding. -/
def cidF (rid : String) : Finding :=
  { regra_id := "TISS_CID_OBR", gravidade := "alta", registro_id := rid
    descricao := Desc.cidAusente
    como_corrigir := "Preencher CID-10 conforme laudo/diagnóstico."
    impacto_estimado_RS := none }

/-- The `TISS_TUSS_OBR` finding. -/
def tussF (rid : String) : Finding :=
  { regra_id := "TISS_TUSS_OBR", gravidade := "alta", registro_id := rid
    descricao := Desc.tussAusente
    como_corrigir := "Preencher código TUSS vigente."
    impacto_estimado_RS := none }

/-- The `TISS_FINANCEIRO` finding: description interpolates `vl_total` and
`round2(calc)`, impact is `abs(calc - vl_total)`. -/
def finF (rid : String) (q u t : ℚ) : Finding :=
  { regra_id := "TISS_FINANCEIRO", gravidade := "media", registro_id := rid
    descricao := Desc.finDiverg t (round2q (q * u))
    como_corrigir := "Ajustar quantidade/valor unitário ou total."
    impacto_estimado_RS := some |q * u - t| }

/-- Body of the `for i, row in df.iterrows()` loop for one (already
coerced) row.  The coercion guarantees the three numeric columns are
numbers or NaN; the wildcard arm is the `pd.isna(...)` guard. -/
def rowChecks (row : String → Cell) : List Finding :=
  (if cellMissing (row "cid10") then [cidF (ridOf row)] else []) ++
  (if cellMissing (row "tuss_codigo") then [tussF (ridOf row)] else []) ++
  (match row "qtd", row "vl_unit", row "vl_total" with
   | Cell.n q, Cell.n u, Cell.n t =>
     if |q * u - t| > 1 / 100 then [finF (ridOf row) q u t] else []
   | _, _, _ => [])

/-- `validate_tiss_csv`, with the in-place mutation made explicit: the
second component is the table as the caller sees it after the call
(numeric columns coerced when all required columns are present, untouched
on the early missing-columns return). -/
def validate_tiss_csv (df : DataFrame) : List Finding × DataFrame :=
  let missing := required_cols.filter (fun c => !(df.cols.contains c))
  if missing.isEmpty then
    let df2 : DataFrame := ⟨df.cols, df.rows.map coerceRow⟩
    (df2.rows.flatMap rowChecks, df2)
  else
    ([camposF missing], df)

/-! ### Regex models: `PROC_10D` and `DATE_8D` -/

/-- `\w` for our character alphabet (Python word character); `\d ⊆ \w`. -/
def wordChar (c : Char) : Bool := c.isAlphanum || c = '_'

/-- True iff position `i` of `s` is absent or holds a non-digit. -/
def notDigitAt (s : List Char) (i : ℕ) : Bool :=
  match s.get? i with
  | none => true
  | some c => !c.isDigit

/-- True iff position `i` of `s` is absent or holds a non-word character. -/
def notWordAt (s : List Char) (i : ℕ) : Bool :=
  match s.get? i with
  | none => true
  | some c => !wordChar c

/-- `k` digits of `s` starting at position `i`. -/
def segAllDigits (s : List Char) (i k : ℕ) : Bool :=
  i + k ≤ s.length && ((s.drop i).take k).all Char.isDigit

/-- `PROC_10D = (?<!\d)(\d{10})(?!\d)` matches at position `i`: ten digits
not preceded and not followed by a digit. -/
def proc10At (s : List Char) (i : ℕ) : Bool :=
  segAllDigits s i 10 && (i == 0 || notDigitAt s (i - 1)) && notDigitAt s (i + 10)

/-- `PROC_10D.search(l)` is truthy: some position matches. -/
def hasProc10 (s : List Char) : Bool := (List.range s.length).any (proc10At s)

/-- `DATE_8D = \b(\d{8})\b` matches at position `i`: eight digits flanked
by word boundaries (string edge or non-word character). -/
def date8At (s : List Char) (i : ℕ) : Bool :=
  segAllDigits s i 8 && (i == 0 || notWordAt s (i - 1)) && notWordAt s (i + 8)

/-- `DATE_8D.findall(s)`: the matched 8-digit tokens in position order.
(The word boundaries make matches non-overlapping, so scanning all
positions coincides with `findall`.) -/
def date8Tokens (s : List Char) : List (List Char) :=
  (List.range s.length).filterMap
    (fun i => if date8At s i then some ((s.drop i).take 8) else none)

/-! ### `datetime.strptime` on 8-digit tokens, and `detect_jul_2025`

On an 8-digit string, `strptime` succeeds only when the format consumes all
eight characters, which pins `%d`/`%m` to two digits each and `%Y` to four;
the directive alternations bound day by 31 and month by 12, and the
`datetime` constructor additionally validates the day against the month
length and requires year ≥ 1.  The functions below implement exactly that
success condition. -/

def leapYear (y : ℕ) : Bool := y % 4 == 0 && (y % 100 != 0 || y % 400 == 0)

def daysInMonth (y m : ℕ) : ℕ :=
  if m = 2 then (if leapYear y then 29 else 28)
  else if m = 4 ∨ m = 6 ∨ m = 9 ∨ m = 11 then 30 else 31

/-- The date `(dd, mm, yyyy)` when it is a valid proleptic-Gregorian
calendar date in `datetime`'s supported year range. -/
def mkValidDate (dd mm yyyy : ℕ) : Option (ℕ × ℕ × ℕ) :=
  if 1 ≤ yyyy ∧ yyyy ≤ 9999 ∧ 1 ≤ mm ∧ mm ≤ 12 ∧ 1 ≤ dd ∧ dd ≤ daysInMonth yyyy mm
  then some (dd, mm, yyyy) else none

/-- `datetime.strptime(token, "%d%m%Y")` on an 8-character digit token,
returned as `(dd, mm, yyyy)`; `none` models `ValueError`. -/
def strptime_ddmmyyyy (t : List Char) : Option (ℕ × ℕ × ℕ) :=
  match t with
  | [a, b, c, d, e, f, g, h] =>
    if (t.all Char.isDigit : Bool) then
      mkValidDate (10 * c2n a + c2n b) (10 * c2n c + c2n d)
        (1000 * c2n e + 100 * c2n f + 10 * c2n g + c2n h)
    else none
  | _ => none

/-- `datetime.strptime(token, "%Y%m%d")` on an 8-character digit token,
returned as `(dd, mm, yyyy)`. -/
def strptime_yyyymmdd (t : List Char) : Option (ℕ × ℕ × ℕ) :=
  match t with
  | [a, b, c, d, e, f, g, h] =>
    if (t.all Char.isDigit : Bool) then
      mkValidDate (10 * c2n g + c2n h) (10 * c2n e + c2n f)
        (1000 * c2n a + 100 * c2n b + 10 * c2n c + c2n d)
    else none
  | _ => none

/-- Inner loop of `detect_jul_2025`: try both formats on one token, true
iff either parse yields year 2025 and month 7. -/
def tokenJul2025 (t : List Char) : Bool :=
  (match strptime_ddmmyyyy t with
   | some (_, m, y) => y == 2025 && m == 7
   | none => false) ||
  (match strptime_yyyymmdd t with
   | some (_, m, y) => y == 2025 && m == 7
   | none => false)

/-- `detect_jul_2025(text)`: some `DATE_8D` token parses to July 2025. -/
def detect_jul_2025 (s : List Char) : Bool := (date8Tokens s).any tokenJul2025

/-! ### `validate_fixed_lines` -/

/-- `str.splitlines` restricted to the `\n` / `\r` / `\r\n` terminators
(the only ones the claims exercise). -/
def splitlinesAux : List Char → List Char → List (List Char)
  | [], acc => if acc.isEmpty then [] else [acc.reverse]
  | c :: rest, acc =>
    if c = '\n' then acc.reverse :: splitlinesAux rest []
    else if c = '\r' then
      match rest with
      | c2 :: rest2 =>
        if c2 = '\n' then acc.reverse :: splitlinesAux rest2 []
        else acc.reverse :: splitlinesAux (c2 :: rest2) []
      | [] => [acc.reverse]
    else splitlinesAux rest (c :: acc)

def splitlines (text : List Char) : List (List Char) := splitlinesAux text []

/-- `l.rstrip("\r\n")` (a no-op on `splitlines` output, kept for fidelity). -/
def rstripCRLF (l : List Char) : List Char :=
  (l.reverse.dropWhile (fun c => c = '\r' ∨ c = '\n')).reverse

/-- The line lengths `lens = [len(l.rstrip("\r\n")) for l in lines]`. -/
def lensOf (lines : List (List Char)) : List ℕ :=
  lines.map (fun l => (rstripCRLF l).length)

/-- Deduplication keeping first occurrences, with an accumulator of the
values already seen. -/
def firstUniquesAux {α : Type} [DecidableEq α] : List α → List α → List α
  | [], _ => []
  | x :: xs, seen =>
    if x ∈ seen then firstUniquesAux xs seen
    else x :: firstUniquesAux xs (x :: seen)

/-- Deduplication keeping first occurrences: the candidate pool of
`max(set(lens), key=lens.count)` (Python set order is unspecified; the
spec fixes first-encountered, which this realises). -/
def firstUniques {α : Type} [DecidableEq α] (l : List α) : List α :=
  firstUniquesAux l []

/-- `mode_len = max(set(lens), key=lens.count)`: first candidate of
maximal multiplicity (`max` keeps the incumbent on ties). -/
def modeLen (lens : List ℕ) : ℕ :=
  match firstUniques lens with
  | [] => 0
  | c :: cs => cs.foldl (fun best x => if lens.count x > lens.count best then x else best) c

/-- `pct_diff = sum(1 for L in lens if L != mode_len) / len(lens) * 100`,
exact over `ℚ`. -/
def pctDiff (lens : List ℕ) : ℚ :=
  ((lens.countP (fun L => decide (L ≠ modeLen lens)) : ℕ) : ℚ) / (lens.length : ℚ) * 100

/-- The value printed by the `f"{pct_diff:.1f}"` interpolation, in tenths
of a percent (half-up; the float format rounds half-to-even,
indistinguishable within the claim's ±0.1 tolerance). -/
def round1 (q : ℚ) : ℤ := ⌊q * 10 + 1 / 2⌋

/-- The `ARQ_VAZIO` finding. -/
def arqVazioF : Finding :=
  { regra_id := "ARQ_VAZIO", gravidade := "alta", registro_id := "-"
    descricao := Desc.arqVazio
    como_corrigir := "Reexportar arquivo do sistema."
    impacto_estimado_RS := some 0 }

/-- The `FIXO_COMPRIMENTO` finding; the description interpolates the
formatted percentage (in tenths) and the modal length. -/
def fixoF (pct1 : ℤ) (mode : ℕ) : Finding :=
  { regra_id := "FIXO_COMPRIMENTO", gravidade := "media", registro_id := "-"
    descricao := Desc.fixoComprimento pct1 mode
    como_corrigir := "Verificar layout/quebras de linha; reexportar."
    impacto_estimado_RS := some 0 }

/-- The `SIGTAP_AUSENTE` finding. -/
def sigtapF : Finding :=
  { regra_id := "SIGTAP_AUSENTE", gravidade := "alta", registro_id := "-"
    descricao := Desc.sigtapAusente
    como_corrigir := "Confirmar se o arquivo contém os procedimentos."
    impacto_estimado_RS := some 0 }

/-- The `COMPETENCIA_DUVIDA` finding. -/
def compF : Finding :=
  { regra_id := "COMPETENCIA_DUVIDA", gravidade := "baixa", registro_id := "-"
    descricao := Desc.competenciaDuvida
    como_corrigir := "Verificar competência do lote."
    impacto_estimado_RS := some 0 }

/-- `validate_fixed_lines`: empty file short-circuits to `ARQ_VAZIO`;
otherwise the three independent checks append their findings in source
order (length homogeneity, SIGTAP codes, July/2025 competency). -/
def validate_fixed_lines (text : List Char) : List Finding :=
  let lines := splitlines text
  if lines.isEmpty then [arqVazioF]
  else
    let lens := lensOf lines
    (if pctDiff lens > 5 then [fixoF (round1 (pctDiff lens)) (modeLen lens)] else []) ++
    (if lines.any hasProc10 then [] else [sigtapF]) ++
    (if lines.any detect_jul_2025 then [] else [compF])

/-! ### `ia_priorizar_e_sugerir`, deterministic (no-credential) path

When `OPENAI_API_KEY` is absent the source skips the whole AI branch, so
the function below is the behaviour the claims condition on.  The
markdown summary strings are embedded as the structured `Resumo` carrying
exactly the interpolated data. -/

/-- One row of the fallback action table (`acoes.append(...)`). -/
structure Acao where
  prioridade : String
  regra_id : String
  gravidade : String
  fonte : String
  registro_id : String
  descricao : String
  como_corrigir : String
  impacto_estimado_RS : Option ℚ
  responsavel_sugerido : String
  prazo_dias : ℕ
deriving DecidableEq

/-- The `resumo_md` markdown: either the fixed no-findings text or the
automatic template interpolating the competency label, the top rule
counts and the summed impact. -/
inductive Resumo where
  | semAchados : Resumo
  | automatico : String → List (String × ℕ) → ℚ → Resumo
deriving DecidableEq

/-- The `(resumo_md, acoes, citacoes)` triple the step always returns. -/
structure IAResult where
  resumo_md : Resumo
  acoes : List Acao
  citacoes : List String
deriving DecidableEq

/-- Insert into a count-descending list, after all entries of count ≥ the
new one (keeps earlier-ranked entries first on ties). -/
def insertDesc (x : String × ℕ) : List (String × ℕ) → List (String × ℕ)
  | [] => [x]
  | y :: ys => if x.2 ≤ y.2 then y :: insertDesc x ys else x :: y :: ys

/-- Stable sort by count, descending. -/
def sortDesc : List (String × ℕ) → List (String × ℕ)
  | [] => []
  | x :: xs => insertDesc x (sortDesc xs)

/-- `view["regra_id"].value_counts().to_dict()`: distinct values with
their multiplicities, ordered by descending count. -/
def valueCounts (xs : List String) : List (String × ℕ) :=
  sortDesc ((firstUniques xs).map (fun v => (v, xs.count v)))

/-- One action row of the fallback loop, `i` counted from 1. -/
def acaoOf (i : ℕ) (reg : String) (count : ℕ) : Acao :=
  { prioridade := if i ≤ 3 then "P1" else "P2"
    regra_id := reg
    gravidade := if i ≤ 3 then "alta" else "media"
    fonte := ""
    registro_id := ""
    descricao := "Tratar " ++ reg ++ " (ocorrências: " ++ toString count ++ ")"
    como_corrigir := "Corrigir registros sinalizados e revalidar."
    impacto_estimado_RS := none
    responsavel_sugerido := "Faturamento"
    prazo_dias := if i ≤ 3 then 5 else 10 }

/-- The fallback action table built from the top rule counts. -/
def acoesOf (vc : List (String × ℕ)) : List Acao :=
  vc.enum.map (fun p => acaoOf (p.1 + 1) p.2.1 p.2.2)

/-- `ia_priorizar_e_sugerir(findings_df_list, meta)` without an AI
credential: skip empty frames, return the fixed no-findings triple when
nothing remains, otherwise build the deterministic summary from the
first 500 findings (top-7 rule counts, summed available impacts). -/
def ia_priorizar_e_sugerir (pack : List (String × List Finding))
    (competencia : Option String) : IAResult :=
  let rows : List (String × Finding) := pack.flatMap (fun p => p.2.map (fun f => (p.1, f)))
  if rows.isEmpty then
    { resumo_md := Resumo.semAchados, acoes := [], citacoes := [] }
  else
    let view := rows.take 500
    let vc := (valueCounts (view.map (fun r => r.2.regra_id))).take 7
    let perdas := (view.map (fun r => r.2.impacto_estimado_RS.getD 0)).sum
    { resumo_md := Resumo.automatico (competencia.getD "(não informada)") vc perdas
      acoes := acoesOf vc
      citacoes := [] }

/-! ### Concrete example tables (the spec's worked example) -/

/-- A one-row-table row with the six required columns populated. -/
def mkRow (guia cid tuss q u t : Cell) : String → Cell := fun c =>
  if c = "numero_guia" then guia
  else if c = "cid10" then cid
  else if c = "tuss_codigo" then tuss
  else if c = "qtd" then q
  else if c = "vl_unit" then u
  else if c = "vl_total" then t
  else Cell.na

/-- Row `qtd=2, vl_unit=10.00, vl_total=25.00` (numeric cells, as a
parsed CSV delivers them). -/
def exRow1 : String → Cell :=
  mkRow (Cell.s "G1") (Cell.s "A00") (Cell.s "10101012")
    (Cell.n 2) (Cell.n 10) (Cell.n 25)

def exDf1 : DataFrame := ⟨required_cols, [exRow1]⟩

/-- The same row with `vl_total=20.00`. -/
def exRow2 : String → Cell :=
  mkRow (Cell.s "G1") (Cell.s "A00") (Cell.s "10101012")
    (Cell.n 2) (Cell.n 10) (Cell.n 20)

def exDf2 : DataFrame := ⟨required_cols, [exRow2]⟩

/-- A table missing `vl_total` but carrying a (nonempty) row. -/
def exDfMissing : DataFrame :=
  ⟨["numero_guia", "cid10", "tuss_codigo", "qtd", "vl_unit"], [exRow1]⟩

/-! ### Helper lemmas -/

/-- With every required column present, `validate_tiss_csv` takes the main
branch: coerce the numeric columns in place, then run the row loop. -/
lemma tiss_all_cols_eq (df : DataFrame) (h : ∀ c ∈ required_cols, c ∈ df.cols) :
    validate_tiss_csv df =
      ((df.rows.map coerceRow).flatMap rowChecks, ⟨df.cols, df.rows.map coerceRow⟩) := by
  have hm : required_cols.filter (fun c => !(df.cols.contains c)) = [] := by
    rw [List.filter_eq_nil_iff]
    intro c hc
    simp [h c hc]
  unfold validate_tiss_csv
  simp only [hm, List.isEmpty_nil, if_true]

/-- With at least one line, `validate_fixed_lines` is the concatenation of
the three independent checks. -/
lemma fixed_lines_eq (text : List Char) (h : splitlines text ≠ []) :
    validate_fixed_lines text =
      (if pctDiff (lensOf (splitlines text)) > 5
       then [fixoF (round1 (pctDiff (lensOf (splitlines text))))
               (modeLen (lensOf (splitlines text)))] else []) ++
      (if (splitlines text).any hasProc10 then [] else [sigtapF]) ++
      (if (splitlines text).any detect_jul_2025 then [] else [compF]) := by
  unfold validate_fixed_lines
  simp only [List.isEmpty_eq_true]
  rw [if_neg h]

/-- Membership in the deduplication accumulator recursion. -/
lemma mem_firstUniquesAux {α : Type} [DecidableEq α] :
    ∀ (l seen : List α) (x : α),
      x ∈ firstUniquesAux l seen ↔ (x ∈ l ∧ x ∉ seen) := by
  intro l
  induction l with
  | nil => intro seen x; simp [firstUniquesAux]
  | cons y ys ih =>
    intro seen x
    unfold firstUniquesAux
    by_cases hy : y ∈ seen
    · rw [if_pos hy, ih]
      constructor
      · rintro ⟨h1, h2⟩
        exact ⟨List.mem_cons_of_mem _ h1, h2⟩
      · rintro ⟨h1, h2⟩
        rcases List.mem_cons.1 h1 with rfl | h1
        · exact absurd hy h2
        · exact ⟨h1, h2⟩
    · rw [if_neg hy]
      constructor
      · intro h1
        rcases List.mem_cons.1 h1 with rfl | h1
        · exact ⟨List.mem_cons_self _ _, hy⟩
        · rw [ih] at h1
          obtain ⟨h2, h3⟩ := h1
          simp only [List.mem_cons, not_or] at h3
          exact ⟨List.mem_cons_of_mem _ h2, h3.2⟩
      · rintro ⟨h1, h2⟩
        rcases List.mem_cons.1 h1 with rfl | h1
        · exact List.mem_cons_self _ _
        · by_cases hxy : x = y
          · subst hxy
            exact List.mem_cons_self _ _
          · refine List.mem_cons_of_mem _ ?_
            rw [ih]
            exact ⟨h1, by simp [hxy, h2]⟩

/-- Membership is preserved by first-occurrence deduplication. -/
lemma mem_firstUniques_iff {α : Type} [DecidableEq α] (l : List α) (x : α) :
    x ∈ firstUniques l ↔ x ∈ l := by
  simp [firstUniques, mem_firstUniquesAux]

/-- The argmax fold of `max(set(lens), key=lens.count)` dominates the
count of its seed and of every candidate. -/
lemma foldl_count_max (lens : List ℕ) :
    ∀ (cs : List ℕ) (c : ℕ),
      lens.count c ≤
        lens.count (cs.foldl (fun best x =>
          if lens.count x > lens.count best then x else best) c) ∧
      ∀ y ∈ cs, lens.count y ≤
        lens.count (cs.foldl (fun best x =>
          if lens.count x > lens.count best then x else best) c) := by
  intro cs
  induction cs with
  | nil => intro c; exact ⟨le_refl _, by simp⟩
  | cons x xs ih =>
    intro c
    simp only [List.foldl_cons]
    have hc : lens.count c ≤
        lens.count (if lens.count x > lens.count c then x else c) := by
      split
      · omega
      · exact le_refl _
    have hx : lens.count x ≤
        lens.count (if lens.count x > lens.count c then x else c) := by
      split
      · exact le_refl _
      · omega
    refine ⟨le_trans hc (ih _).1, ?_⟩
    intro y hy
    rcases List.mem_cons.1 hy with rfl | h1
    · exact le_trans hx (ih _).1
    · exact (ih _).2 y h1

/-- `mode_len` has maximal multiplicity among the observed lengths. -/
lemma count_le_count_modeLen (lens : List ℕ) (x : ℕ) (hx : x ∈ lens) :
    lens.count x ≤ lens.count (modeLen lens) := by
  have hx' : x ∈ firstUniques lens := (mem_firstUniques_iff lens x).2 hx
  unfold modeLen
  rcases hfu : firstUniques lens with _ | ⟨c, cs⟩
  · rw [hfu] at hx'; simp at hx'
  · rw [hfu] at hx'
    rcases List.mem_cons.1 hx' with h1 | h1
    · exact h1 ▸ (foldl_count_max lens cs c).1
    · exact (foldl_count_max lens cs c).2 x h1

/-- The 1-decimal rendering of the percentage is within 0.1 of its exact
value (it is in fact within 0.05). -/
lemma round1_close (q : ℚ) : |(round1 q : ℚ) / 10 - q| ≤ 1 / 10 := by
  have h1 : ((round1 q : ℤ) : ℚ) ≤ q * 10 + 1 / 2 := Int.floor_le _
  have h2 : q * 10 + 1 / 2 < ((round1 q : ℤ) : ℚ) + 1 := Int.lt_floor_add_one _
  rw [abs_le]
  constructor <;> nlinarith [h1, h2]

/-- A digit position is a word character, hence never a word boundary. -/
lemma notWordAt_eq_false_of_digit (s : List Char) (i : ℕ)
    (h : (match s.get? i with | none => false | some c => c.isDigit) = true) :
    notWordAt s i = false := by
  unfold notWordAt
  rcases hg : s.get? i with _ | c
  · rw [hg] at h; simp at h
  · rw [hg] at h
    simp only at h
    simp [wordChar, Char.isAlphanum, h]

/-- Filtering a singleton by a rule id it does not carry. -/
lemma filter_rule_nil (r : String) (f : Finding) (h : (f.regra_id == r) = false) :
    List.filter (fun g => g.regra_id == r) [f] = [] := by
  simp [List.filter_cons, h]

/-- Filtering a singleton by its own rule id. -/
lemma filter_rule_keep (r : String) (f : Finding) (h : (f.regra_id == r) = true) :
    List.filter (fun g => g.regra_id == r) [f] = [f] := by
  simp [List.filter_cons, h]

/-- An optional singleton of a foreign rule id filters away. -/
lemma filter_rule_ite_nil (r : String) (c : Prop) [Decidable c] (f : Finding)
    (h : (f.regra_id == r) = false) :
    List.filter (fun g => g.regra_id == r) (if c then [f] else []) = [] := by
  split
  · exact filter_rule_nil r f h
  · rfl

/-- Same, with the singleton in the else branch. -/
lemma filter_rule_ite_nil2 (r : String) (c : Prop) [Decidable c] (f : Finding)
    (h : (f.regra_id == r) = false) :
    List.filter (fun g => g.regra_id == r) (if c then [] else [f]) = [] := by
  split
  · rfl
  · exact filter_rule_nil r f h

/-! ### Claim theorems -/

/-- C1: on a table with all six required columns, the validator is the row
loop over the coerced rows; a row whose three numeric fields coerced to
numbers `q`, `u`, `t` contributes a `TISS_FINANCEIRO` finding exactly when
`|q*u - t| > 0.01`, and that finding carries `|q*u - t|` as its estimated
impact.  On the worked example (`qtd=2, vl_unit=10.00, vl_total=25.00`)
this is one finding of impact `5`; with `vl_total=20.00`, none. -/
theorem tiss_financeiro_exactly_when :
    (∀ df : DataFrame, (∀ c ∈ required_cols, c ∈ df.cols) →
      (validate_tiss_csv df).1 = (df.rows.map coerceRow).flatMap rowChecks) ∧
    (∀ (row : String → Cell) (q u t : ℚ),
      row "qtd" = Cell.n q → row "vl_unit" = Cell.n u → row "vl_total" = Cell.n t →
      (rowChecks row).filter (fun f => f.regra_id == "TISS_FINANCEIRO") =
        (if |q * u - t| > 1 / 100 then [finF (ridOf row) q u t] else [])) ∧
    (∀ (r : String) (q u t : ℚ),
      (finF r q u t).regra_id = "TISS_FINANCEIRO" ∧
      (finF r q u t).impacto_estimado_RS = some |q * u - t|) ∧
    (validate_tiss_csv exDf1).1 = [finF "G1" 2 10 25] ∧
    (finF "G1" 2 10 25).impacto_estimado_RS = some 5 ∧
    (validate_tiss_csv exDf2).1 = [] := by
  refine ⟨?_, ?_, fun r q u t => ⟨rfl, rfl⟩, ?_, ?_, ?_⟩
  · intro df h
    rw [tiss_all_cols_eq df h]
  · intro row q u t hq hu ht
    unfold rowChecks
    rw [hq, hu, ht]
    simp only [List.filter_append]
    rw [filter_rule_ite_nil "TISS_FINANCEIRO" _ (cidF (ridOf row)) rfl,
      filter_rule_ite_nil "TISS_FINANCEIRO" _ (tussF (ridOf row)) rfl,
      List.nil_append, List.nil_append]
    change List.filter (fun f => f.regra_id == "TISS_FINANCEIRO")
      (if |q * u - t| > 1 / 100 then [finF (ridOf row) q u t] else []) = _
    split
    · exact filter_rule_keep _ _ rfl
    · rfl
  · rw [tiss_all_cols_eq exDf1 (by decide)]
    show rowChecks (coerceRow exRow1) ++ [] = [finF "G1" 2 10 25]
    rw [List.append_nil]
    unfold rowChecks
    rw [show cellMissing (coerceRow exRow1 "cid10") = false from rfl,
      show cellMissing (coerceRow exRow1 "tuss_codigo") = false from rfl]
    rw [show coerceRow exRow1 "qtd" = Cell.n 2 from rfl,
      show coerceRow exRow1 "vl_unit" = Cell.n 10 from rfl,
      show coerceRow exRow1 "vl_total" = Cell.n 25 from rfl]
    change [] ++ [] ++ (if |(2 : ℚ) * 10 - 25| > 1 / 100
      then [finF (ridOf (coerceRow exRow1)) 2 10 25] else []) = _
    rw [if_pos (by norm_num)]
    rfl
  · show some |(2 : ℚ) * 10 - 25| = some 5
    norm_num
  · rw [tiss_all_cols_eq exDf2 (by decide)]
    show rowChecks (coerceRow exRow2) ++ [] = []
    rw [List.append_nil]
    unfold rowChecks
    rw [show cellMissing (coerceRow exRow2 "cid10") = false from rfl,
      show cellMissing (coerceRow exRow2 "tuss_codigo") = false from rfl]
    rw [show coerceRow exRow2 "qtd" = Cell.n 2 from rfl,
      show coerceRow exRow2 "vl_unit" = Cell.n 10 from rfl,
      show coerceRow exRow2 "vl_total" = Cell.n 20 from rfl]
    change [] ++ [] ++ (if |(2 : ℚ) * 10 - 20| > 1 / 100
      then [finF (ridOf (coerceRow exRow2)) 2 10 20] else []) = _
    rw [if_neg (by norm_num)]
    rfl

theorem tiss_financeiro_exactly_when_witness :
    (∀ c ∈ required_cols, c ∈ exDf1.cols) ∧
    (validate_tiss_csv exDf1).1 = (exDf1.rows.map coerceRow).flatMap rowChecks :=
  ⟨by decide, tiss_financeiro_exactly_when.1 exDf1 (by decide)⟩

/-- C6: for every input text with zero lines, the fixed-width validator
returns exactly one finding — rule `ARQ_VAZIO`, severity `alta`, at file
level (`registro_id = "-"`) — and nothing else; no further check runs. -/
theorem arq_vazio_exactly_one (text : List Char) (h : splitlines text = []) :
    validate_fixed_lines text = [arqVazioF] ∧
    arqVazioF.regra_id = "ARQ_VAZIO" ∧
    arqVazioF.gravidade = "alta" ∧
    arqVazioF.registro_id = "-" := by
  refine ⟨?_, rfl, rfl, rfl⟩
  unfold validate_fixed_lines
  simp [h]

theorem arq_vazio_exactly_one_witness :
    splitlines ([] : List Char) = [] ∧
    validate_fixed_lines ([] : List Char) = [arqVazioF] :=
  ⟨rfl, (arq_vazio_exactly_one [] rfl).1⟩

/-- C2: whenever at least one required column is absent, the delimited
validator returns exactly one finding — `TISS_CAMPOS_OBR`, severity
`alta` — whose description names exactly the missing required columns;
no row-level check runs (the result does not depend on the rows), and the
outcome is an ordinary `Finding`, not an exception (the embedding is a
total function). -/
theorem tiss_missing_cols_single_finding (df : DataFrame)
    (h : ∃ c ∈ required_cols, c ∉ df.cols) :
    (validate_tiss_csv df).1 =
      [camposF (required_cols.filter (fun c => !(df.cols.contains c)))] ∧
    (camposF (required_cols.filter (fun c => !(df.cols.contains c)))).regra_id =
      "TISS_CAMPOS_OBR" ∧
    (camposF (required_cols.filter (fun c => !(df.cols.contains c)))).gravidade =
      "alta" ∧
    (camposF (required_cols.filter (fun c => !(df.cols.contains c)))).descricao =
      Desc.colunasAusentes (required_cols.filter (fun c => !(df.cols.contains c))) ∧
    (∀ c, c ∈ required_cols.filter (fun c => !(df.cols.contains c)) ↔
      (c ∈ required_cols ∧ c ∉ df.cols)) := by
  have hne : required_cols.filter (fun c => !(df.cols.contains c)) ≠ [] := by
    obtain ⟨c, hc, hnc⟩ := h
    intro hnil
    have hmem : c ∈ required_cols.filter (fun c => !(df.cols.contains c)) := by
      rw [List.mem_filter]
      exact ⟨hc, by simp [hnc]⟩
    rw [hnil] at hmem
    simp at hmem
  refine ⟨?_, rfl, rfl, rfl, ?_⟩
  · unfold validate_tiss_csv
    rw [if_neg (by simpa [List.isEmpty_eq_true] using hne)]
  · intro c
    rw [List.mem_filter]
    simp

theorem tiss_missing_cols_single_finding_witness :
    (∃ c ∈ required_cols, c ∉ exDfMissing.cols) ∧
    (validate_tiss_csv exDfMissing).1 =
      [camposF (required_cols.filter (fun c => !(exDfMissing.cols.contains c)))] :=
  ⟨by decide, (tiss_missing_cols_single_finding exDfMissing (by decide)).1⟩

/-- C10: with all required columns present, the call leaves the caller's
table mutated in place: the `qtd`, `vl_unit`, `vl_total` columns are
overwritten with their numeric coercions (unparsable cells become NaN),
every other column is untouched.  The second component of the embedding
is the table state after the call. -/
theorem tiss_mutates_numeric_cols (df : DataFrame)
    (h : ∀ c ∈ required_cols, c ∈ df.cols) :
    (validate_tiss_csv df).2.cols = df.cols ∧
    (validate_tiss_csv df).2.rows = df.rows.map coerceRow ∧
    (∀ row : String → Cell, ∀ c ∈ numeric_cols, coerceRow row c = toNumericCell (row c)) ∧
    (∀ row : String → Cell, ∀ c, c ∉ numeric_cols → coerceRow row c = row c) ∧
    toNumericCell (Cell.s "abc") = Cell.na := by
  rw [tiss_all_cols_eq df h]
  refine ⟨rfl, rfl, ?_, ?_, by decide⟩
  · intro row c hc
    simp [coerceRow, hc]
  · intro row c hc
    simp [coerceRow, hc]

theorem tiss_mutates_numeric_cols_witness :
    (∀ c ∈ required_cols, c ∈ exDf1.cols) ∧
    (validate_tiss_csv exDf1).2.rows = exDf1.rows.map coerceRow :=
  ⟨by decide, (tiss_mutates_numeric_cols exDf1 (by decide)).2.1⟩

/-- C9: the no-credential remediation-summary step is a pure function of
the findings pack and the metadata — two invocations on the same inputs
return the same summary and action table — and an all-empty pack yields
the fixed no-findings summary with an empty action table (it returns,
never raises: the embedding is total). -/
theorem ia_fallback_deterministic (pack : List (String × List Finding))
    (competencia : Option String) :
    ia_priorizar_e_sugerir pack competencia = ia_priorizar_e_sugerir pack competencia ∧
    ((∀ e ∈ pack, e.2 = []) →
      ia_priorizar_e_sugerir pack competencia =
        { resumo_md := Resumo.semAchados, acoes := [], citacoes := [] }) := by
  refine ⟨rfl, ?_⟩
  intro h
  have hfl : pack.flatMap (fun p => p.2.map (fun f => (p.1, f))) = [] := by
    rw [List.flatMap_eq_nil_iff]
    intro p hp
    rw [h p hp]
    rfl
  unfold ia_priorizar_e_sugerir
  simp [hfl]

theorem ia_fallback_deterministic_witness :
    (∀ e ∈ [(("TISS" : String), ([] : List Finding))], e.2 = []) ∧
    ia_priorizar_e_sugerir [("TISS", [])] (some "202507") =
      { resumo_md := Resumo.semAchados, acoes := [], citacoes := [] } :=
  ⟨by decide, (ia_fallback_deterministic [("TISS", [])] (some "202507")).2 (by decide)⟩

/-- C3: on a non-empty fixed-width input, no `FIXO_COMPRIMENTO` finding is
emitted when at most 5% of the stripped line lengths differ from the
modal length, and exactly one (severity `media`) when strictly more than
5% differ; the finding cites the percentage to one decimal — within ±0.1
of the exact value — and a length of maximal multiplicity. -/
theorem fixo_comprimento_threshold (text : List Char) (h : splitlines text ≠ []) :
    (pctDiff (lensOf (splitlines text)) ≤ 5 →
      (validate_fixed_lines text).filter (fun f => f.regra_id == "FIXO_COMPRIMENTO") = []) ∧
    (pctDiff (lensOf (splitlines text)) > 5 →
      (validate_fixed_lines text).filter (fun f => f.regra_id == "FIXO_COMPRIMENTO") =
        [fixoF (round1 (pctDiff (lensOf (splitlines text))))
          (modeLen (lensOf (splitlines text)))]) ∧
    (∀ (a : ℤ) (b : ℕ), (fixoF a b).regra_id = "FIXO_COMPRIMENTO" ∧
      (fixoF a b).gravidade = "media" ∧ (fixoF a b).descricao = Desc.fixoComprimento a b) ∧
    |(round1 (pctDiff (lensOf (splitlines text))) : ℚ) / 10
      - pctDiff (lensOf (splitlines text))| ≤ 1 / 10 ∧
    (∀ x ∈ lensOf (splitlines text),
      (lensOf (splitlines text)).count x ≤
        (lensOf (splitlines text)).count (modeLen (lensOf (splitlines text)))) := by
  refine ⟨?_, ?_, fun a b => ⟨rfl, rfl, rfl⟩, round1_close _,
    fun x hx => count_le_count_modeLen _ x hx⟩
  · intro hle
    rw [fixed_lines_eq text h]
    simp only [List.filter_append]
    rw [filter_rule_ite_nil2 "FIXO_COMPRIMENTO" _ sigtapF rfl,
      filter_rule_ite_nil2 "FIXO_COMPRIMENTO" _ compF rfl,
      List.append_nil, List.append_nil]
    rw [if_neg (not_lt.2 hle)]
    rfl
  · intro hgt
    rw [fixed_lines_eq text h]
    simp only [List.filter_append]
    rw [filter_rule_ite_nil2 "FIXO_COMPRIMENTO" _ sigtapF rfl,
      filter_rule_ite_nil2 "FIXO_COMPRIMENTO" _ compF rfl,
      List.append_nil, List.append_nil]
    rw [if_pos hgt]
    exact filter_rule_keep _ _ rfl

theorem fixo_comprimento_threshold_witness :
    splitlines "aa\nbbb".toList ≠ [] ∧
    pctDiff (lensOf (splitlines "aa\nbbb".toList)) > 5 ∧
    (validate_fixed_lines "aa\nbbb".toList).filter
        (fun f => f.regra_id == "FIXO_COMPRIMENTO") =
      [fixoF (round1 (pctDiff (lensOf (splitlines "aa\nbbb".toList))))
        (modeLen (lensOf (splitlines "aa\nbbb".toList)))] := by
  have h1 : splitlines "aa\nbbb".toList ≠ [] := by decide
  have h2 : pctDiff (lensOf (splitlines "aa\nbbb".toList)) > 5 := by
    have hl : lensOf (splitlines "aa\nbbb".toList) = [2, 3] := by decide
    rw [hl]
    unfold pctDiff
    rw [show List.countP (fun L => decide (L ≠ modeLen [2, 3])) [2, 3] = 1 from by decide]
    norm_num
  exact ⟨h1, h2, (fixo_comprimento_threshold _ h1).2.1 h2⟩

/-- C4: the standalone token `01072025` parses to July 2025 as DDMMYYYY,
`20250731` as YYYYMMDD, and `15021990` does not trigger the detector; at
file level, a non-empty fixed-width input with such a token on some line
gets no `COMPETENCIA_DUVIDA` finding, while one with no line yielding
July 2025 under either layout gets exactly one (severity `baixa`). -/
theorem competencia_jul2025 :
    strptime_ddmmyyyy "01072025".toList = some (1, 7, 2025) ∧
    detect_jul_2025 "01072025".toList = true ∧
    strptime_yyyymmdd "20250731".toList = some (31, 7, 2025) ∧
    detect_jul_2025 "20250731".toList = true ∧
    detect_jul_2025 "15021990".toList = false ∧
    (∀ text : List Char, splitlines text ≠ [] →
      ((splitlines text).any detect_jul_2025 = true →
        (validate_fixed_lines text).filter
          (fun f => f.regra_id == "COMPETENCIA_DUVIDA") = []) ∧
      ((splitlines text).any detect_jul_2025 = false →
        (validate_fixed_lines text).filter
          (fun f => f.regra_id == "COMPETENCIA_DUVIDA") = [compF]) ∧
      compF.regra_id = "COMPETENCIA_DUVIDA" ∧ compF.gravidade = "baixa") := by
  refine ⟨by decide, by decide, by decide, by decide, by decide, ?_⟩
  intro text h
  refine ⟨?_, ?_, rfl, rfl⟩
  · intro hany
    rw [fixed_lines_eq text h]
    simp only [List.filter_append]
    rw [filter_rule_ite_nil "COMPETENCIA_DUVIDA" _ (fixoF _ _) rfl,
      filter_rule_ite_nil2 "COMPETENCIA_DUVIDA" _ sigtapF rfl,
      List.nil_append, List.nil_append]
    rw [if_pos hany]
    rfl
  · intro hany
    rw [fixed_lines_eq text h]
    simp only [List.filter_append]
    rw [filter_rule_ite_nil "COMPETENCIA_DUVIDA" _ (fixoF _ _) rfl,
      filter_rule_ite_nil2 "COMPETENCIA_DUVIDA" _ sigtapF rfl,
      List.nil_append, List.nil_append]
    rw [if_neg (by simp [hany])]
    exact filter_rule_keep _ _ rfl

theorem competencia_jul2025_witness :
    splitlines "15021990".toList ≠ [] ∧
    (splitlines "15021990".toList).any detect_jul_2025 = false ∧
    (validate_fixed_lines "15021990".toList).filter
      (fun f => f.regra_id == "COMPETENCIA_DUVIDA") = [compF] :=
  ⟨by decide, by decide,
    ((competencia_jul2025.2.2.2.2.2 "15021990".toList (by decide)).2.1 (by decide))⟩

/-- C5: a non-empty fixed-width input in which no line matches the
10-digit token pattern gets a `SIGTAP_AUSENTE` finding (severity `alta`,
exactly one), and a single 10-digit token anywhere in some line — such as
`0301010019`, even embedded in other non-digit text — suppresses it. -/
theorem sigtap_ausente_iff :
    hasProc10 "0301010019".toList = true ∧
    hasProc10 "AB 0301010019 CD".toList = true ∧
    (∀ text : List Char, splitlines text ≠ [] →
      ((splitlines text).any hasProc10 = false →
        (validate_fixed_lines text).filter
          (fun f => f.regra_id == "SIGTAP_AUSENTE") = [sigtapF]) ∧
      ((splitlines text).any hasProc10 = true →
        (validate_fixed_lines text).filter
          (fun f => f.regra_id == "SIGTAP_AUSENTE") = []) ∧
      sigtapF.regra_id = "SIGTAP_AUSENTE" ∧ sigtapF.gravidade = "alta") := by
  refine ⟨by decide, by decide, ?_⟩
  intro text h
  refine ⟨?_, ?_, rfl, rfl⟩
  · intro hany
    rw [fixed_lines_eq text h]
    simp only [List.filter_append]
    rw [filter_rule_ite_nil "SIGTAP_AUSENTE" _ (fixoF _ _) rfl,
      filter_rule_ite_nil2 "SIGTAP_AUSENTE" _ compF rfl,
      List.nil_append, List.append_nil]
    rw [if_neg (by simp [hany])]
    exact filter_rule_keep _ _ rfl
  · intro hany
    rw [fixed_lines_eq text h]
    simp only [List.filter_append]
    rw [filter_rule_ite_nil "SIGTAP_AUSENTE" _ (fixoF _ _) rfl,
      filter_rule_ite_nil2 "SIGTAP_AUSENTE" _ compF rfl,
      List.nil_append, List.append_nil]
    rw [if_pos hany]
    rfl

theorem sigtap_ausente_iff_witness :
    splitlines "abc".toList ≠ [] ∧
    (splitlines "abc".toList).any hasProc10 = false ∧
    (validate_fixed_lines "abc".toList).filter
      (fun f => f.regra_id == "SIGTAP_AUSENTE") = [sigtapF] :=
  ⟨by decide, by decide,
    ((sigtap_ausente_iff.2.2 "abc".toList (by decide)).1 (by decide))⟩

/-! ### C7: interaction of the 10-digit token with the 8-digit date regex -/

/-- The digit content of `s` is a single 10-digit token occupying exactly
positions `p .. p+9` (every digit of the line lies there). -/
def singleToken10 (s : List Char) (p : ℕ) : Prop :=
  p + 10 ≤ s.length ∧
  ∀ i, i < s.length →
    ((match s.get? i with | none => false | some c => c.isDigit) = true ↔
      (p ≤ i ∧ i < p + 10))

instance (s : List Char) (p : ℕ) : Decidable (singleToken10 s p) := by
  unfold singleToken10
  infer_instance

/-- Inside a maximal 10-digit run, `DATE_8D`'s word boundaries can never
both hold: a match starting after the run start has a digit to its left,
and a match starting at the run start has a digit just after its end. -/
lemma date8_no_match_in_run (s : List Char) (p j : ℕ)
    (hs : singleToken10 s p) (h1 : p ≤ j) (h2 : j + 8 ≤ p + 10) :
    date8At s j = false := by
  obtain ⟨hlen, hdig⟩ := hs
  by_contra hmatch
  rw [Bool.not_eq_false] at hmatch
  unfold date8At at hmatch
  rw [Bool.and_eq_true, Bool.and_eq_true, Bool.or_eq_true] at hmatch
  obtain ⟨⟨_, hleft⟩, hright⟩ := hmatch
  rcases Nat.eq_or_lt_of_le h1 with hjp | hjp
  · have hd : (match s.get? (j + 8) with | none => false | some c => c.isDigit) = true :=
      (hdig (j + 8) (by omega)).2 (by omega)
    rw [notWordAt_eq_false_of_digit s (j + 8) hd] at hright
    exact Bool.false_ne_true hright
  · have hd : (match s.get? (j - 1) with | none => false | some c => c.isDigit) = true :=
      (hdig (j - 1) (by omega)).2 (by omega)
    rcases hleft with hj0 | hW
    · have : j = 0 := by simpa using hj0
      omega
    · rw [notWordAt_eq_false_of_digit s (j - 1) hd] at hW
      exact Bool.false_ne_true hW

/-- C7 (counterexample): the claim asserts some line whose digit content
is a single 10-digit token has a `DATE_8D` match inside that token; no
such line exists — the `\b` boundaries reject every 8-digit window of a
10-digit run. -/
theorem date8_inside_10digit_token_impossible :
    ¬ ∃ (s : List Char) (p j : ℕ),
      singleToken10 s p ∧ p ≤ j ∧ j + 8 ≤ p + 10 ∧ date8At s j = true := by
  rintro ⟨s, p, j, hs, h1, h2, hm⟩
  rw [date8_no_match_in_run s p j hs h1 h2] at hm
  exact Bool.false_ne_true hm

/-- C7 (amended): on a line whose digit content is a single 10-digit
procedure-code token, the 8-digit date regex matches no window of that
token — a 10-digit code alone can never spuriously trigger the July/2025
date detection. -/
theorem date8_never_matches_inside_10digit_token
    (s : List Char) (p : ℕ) (hs : singleToken10 s p)
    (j : ℕ) (h1 : p ≤ j) (h2 : j + 8 ≤ p + 10) :
    date8At s j = false :=
  date8_no_match_in_run s p j hs h1 h2

theorem date8_never_matches_inside_10digit_token_witness :
    singleToken10 "0301010019".toList 0 ∧
    date8At "0301010019".toList 0 = false :=
  ⟨by decide,
    date8_never_matches_inside_10digit_token "0301010019".toList 0 (by decide)
      0 (by decide) (by decide)⟩

/-! ### C8: closed rule-id catalog and non-negative impacts -/

/-- The closed catalog of rule ids (spec section 6). -/
def ruleCatalog : List String :=
  ["TISS_CAMPOS_OBR", "TISS_CID_OBR", "TISS_TUSS_OBR", "TISS_FINANCEIRO",
   "ARQ_VAZIO", "FIXO_COMPRIMENTO", "SIGTAP_AUSENTE", "COMPETENCIA_DUVIDA"]

/-- Every finding of the delimited validator is one of its four shapes. -/
lemma tiss_finding_shape (df : DataFrame) (f : Finding)
    (h : f ∈ (validate_tiss_csv df).1) :
    (∃ m, f = camposF m) ∨ (∃ r, f = cidF r) ∨ (∃ r, f = tussF r) ∨
    (∃ r q u t, f = finF r q u t) := by
  simp only [validate_tiss_csv] at h
  split at h
  · simp only at h
    rcases List.mem_flatMap.1 h with ⟨row, _, hf⟩
    simp only [rowChecks, List.mem_append] at hf
    rcases hf with (hf | hf) | hf
    · split at hf
      · right; left; exact ⟨_, by simpa using hf⟩
      · simp at hf
    · split at hf
      · right; right; left; exact ⟨_, by simpa using hf⟩
      · simp at hf
    · split at hf
      · split at hf
        · right; right; right; exact ⟨_, _, _, _, by simpa using hf⟩
        · simp at hf
      · simp at hf
  · left; exact ⟨_, by simpa using h⟩

/-- Every finding of the fixed-width validator is one of its four shapes. -/
lemma fixed_finding_shape (text : List Char) (f : Finding)
    (h : f ∈ validate_fixed_lines text) :
    f = arqVazioF ∨ (∃ a b, f = fixoF a b) ∨ f = sigtapF ∨ f = compF := by
  simp only [validate_fixed_lines] at h
  split at h
  · left; simpa using h
  · simp only [List.mem_append] at h
    rcases h with (h | h) | h
    · split at h
      · right; left; exact ⟨_, _, by simpa using h⟩
      · simp at h
    · split at h
      · simp at h
      · right; right; left; simpa using h
    · split at h
      · simp at h
      · right; right; right; simpa using h

/-- C8: every finding either validator emits carries a rule id from the
closed eight-element catalog, and its estimated impact, when present, is
a non-negative rational (absent impacts are `none`). -/
theorem findings_catalog_and_nonneg (df : DataFrame) (text : List Char) (f : Finding)
    (h : f ∈ (validate_tiss_csv df).1 ∨ f ∈ validate_fixed_lines text) :
    f.regra_id ∈ ruleCatalog ∧ (∀ q : ℚ, f.impacto_estimado_RS = some q → 0 ≤ q) := by
  rcases h with h | h
  · rcases tiss_finding_shape df f h with ⟨m, rfl⟩ | ⟨r, rfl⟩ | ⟨r, rfl⟩ | ⟨r, q, u, t, rfl⟩
    · refine ⟨show "TISS_CAMPOS_OBR" ∈ ruleCatalog from by decide, fun q hq => ?_⟩
      have h0 : (0 : ℚ) = q := by simpa [camposF] using hq
      rw [← h0]
    · exact ⟨show "TISS_CID_OBR" ∈ ruleCatalog from by decide,
        fun q hq => by simp [cidF] at hq⟩
    · exact ⟨show "TISS_TUSS_OBR" ∈ ruleCatalog from by decide,
        fun q hq => by simp [tussF] at hq⟩
    · refine ⟨show "TISS_FINANCEIRO" ∈ ruleCatalog from by decide, fun q' hq' => ?_⟩
      have h0 : |q * u - t| = q' := by simpa [finF] using hq'
      rw [← h0]
      exact abs_nonneg _
  · rcases fixed_finding_shape text f h with rfl | ⟨a, b, rfl⟩ | rfl | rfl
    · refine ⟨show "ARQ_VAZIO" ∈ ruleCatalog from by decide, fun q hq => ?_⟩
      have h0 : (0 : ℚ) = q := by simpa [arqVazioF] using hq
      rw [← h0]
    · refine ⟨show "FIXO_COMPRIMENTO" ∈ ruleCatalog from by decide, fun q hq => ?_⟩
      have h0 : (0 : ℚ) = q := by simpa [fixoF] using hq
      rw [← h0]
    · refine ⟨show "SIGTAP_AUSENTE" ∈ ruleCatalog from by decide, fun q hq => ?_⟩
      have h0 : (0 : ℚ) = q := by simpa [sigtapF] using hq
      rw [← h0]
    · refine ⟨show "COMPETENCIA_DUVIDA" ∈ ruleCatalog from by decide, fun q hq => ?_⟩
      have h0 : (0 : ℚ) = q := by simpa [compF] using hq
      rw [← h0]

theorem findings_catalog_and_nonneg_witness :
    arqVazioF ∈ validate_fixed_lines ([] : List Char) ∧
    arqVazioF.regra_id ∈ ruleCatalog ∧
    (∀ q : ℚ, arqVazioF.impacto_estimado_RS = some q → 0 ≤ q) :=
  ⟨by decide,
    (findings_catalog_and_nonneg ⟨[], []⟩ [] arqVazioF (Or.inr (by decide))).1,
    (findings_catalog_and_nonneg ⟨[], []⟩ [] arqVazioF (Or.inr (by decide))).2⟩

end InsightCare
